import Mathlib

/-
  Verification of the command-dispatch and event-broadcast core of the
  `music_assistant` web gateway (src/music_assistant/web.py).

  The embedding models the three protocol handlers of `Web`:
    * `player_command`  — REST path-style command endpoint (web.py lines 176-193)
    * `handle_frame` / `ws_command` — per-frame body of `websocket_handler`
      (web.py lines 237-257), together with a session-lifecycle model
      `websocket_session` for the try/finally structure (lines 224-261)
    * `json_rpc`        — legacy LMS json-rpc phrase endpoint (lines 284-328)

  Python semantics are made explicit: a raised exception is an `Except.error`
  carrying a `PyErr`; attribute lookup via `getattr(obj, name, None)` is an
  association-list lookup; string `split('/')`, `in` (substring) and
  `' '.join` are re-implemented structurally so the kernel can evaluate them.
  Capability invocations performed by a handler are recorded in an `invoked`
  trace, and `LOGGER.error` calls in a `logs` trace, so that "never invokes" /
  "records a diagnostic" properties are observable.
-/

namespace MassWeb

/-- Values a modelled Python expression can produce (only the shapes the
handlers actually pass around: None, booleans, strings). -/
inductive PyVal where
  | none
  | bool (b : Bool)
  | str (s : String)
deriving DecidableEq, Repr

/-- Exceptions a modelled handler can raise. -/
inductive PyErr where
  | attributeError (name : String)
  | indexError
  | typeError (msg : String)
  | transportError
  | capFail (msg : String)
deriving DecidableEq, Repr

/-- Modelled from the spec: the Capability Interface of a player (external
collaborator, §6 of the spec) — a named zero-or-one-argument asynchronous
operation.  `run` receives the positional-argument list of the Python call
and either returns a value or raises. -/
structure Capability where
  run : List PyVal → Except PyErr PyVal

/-- Modelled from the spec: a capability-bearing entity (player).  Its
attribute table maps command names to bound capability methods. -/
structure Player where
  name : String
  caps : List (String × Capability)

/-- Modelled from the spec: the external player registry, by player id. -/
def Registry := List (String × Player)

/-- Modelled from the spec: `resolve(targetId) -> CapabilityTarget | none`
(`self.mass.players.get_player`). -/
def get_player (reg : Registry) (player_id : String) : Option Player :=
  (reg.find? (fun pr => pr.1 == player_id)).map (fun pr => pr.2)

/-- Python `getattr(player, cmd, None)` on a live player: lookup of a bound
method in the player's capability table. -/
def getattr (p : Player) (cmd : String) : Option Capability :=
  (p.caps.find? (fun pr => pr.1 == cmd)).map (fun pr => pr.2)

/-- Python `getattr(obj, cmd, None)` where `obj` may be Python `None`
(the websocket path does not check the `get_player` result).  Capability
names are ordinary identifiers, never dunder attributes of `NoneType`,
so the lookup on `None` yields `None`. -/
def getattrOpt : Option Player → String → Option Capability
  | Option.none, _ => Option.none
  | some p, cmd => getattr p cmd

/-- One capability invocation actually performed by a handler: the requested
target id, the attribute name called, and the positional arguments. -/
structure Invocation where
  target : String
  cap : String
  args : List PyVal
deriving DecidableEq, Repr

/-- The `LOGGER.error` diagnostics the REST handler can emit
(web.py lines 190 and 192). -/
inductive LogMsg where
  | nonExistingCommand (cmd pname : String)
  | nonExistingPlayer (pid : String)
deriving DecidableEq, Repr

/-- Result of running one handler body: the Python return value or raised
exception, plus the capability-invocation and diagnostic-log traces. -/
structure Outcome (α : Type) where
  res : Except PyErr α
  invoked : List Invocation
  logs : List LogMsg
deriving Repr

/- ---------------------------------------------------------------------
   Structural re-implementations of the Python string operations used,
   so every concrete frame evaluates by kernel reduction.
--------------------------------------------------------------------- -/

/-- Python `s.split(c)` for a single-character separator, on the char list. -/
def splitChar (c : Char) : List Char → List (List Char)
  | [] => [[]]
  | x :: xs =>
    let r := splitChar c xs
    if x = c then [] :: r
    else
      match r with
      | [] => [[x]]
      | y :: ys => (x :: y) :: ys

/-- Python `data.split('/')` etc., producing strings. -/
def pySplit (c : Char) (s : String) : List String :=
  (splitChar c s.toList).map (fun l => String.mk l)

/-- Python substring containment `needle in hay` (non-empty needle). -/
def containsSub (needle : List Char) : List Char → Bool
  | [] => needle.isEmpty
  | x :: t => needle.isPrefixOf (x :: t) || containsSub needle t

/-- Python `' '.join(words)`. -/
def joinSpace : List String → String
  | [] => ""
  | [x] => x
  | x :: y :: xs => x ++ " " ++ joinSpace (y :: xs)

/- ---------------------------------------------------------------------
   REST path-style command endpoint: Web.player_command (web.py 176-193).
--------------------------------------------------------------------- -/

/-- Embedding of `Web.player_command` (web.py lines 176-193).  `result`
starts `False`; an unknown player or unknown command leaves it `False`
and logs; an exception raised by the invoked capability propagates. -/
def player_command (reg : Registry) (player_id cmd : String)
    (cmd_args : Option String) : Outcome PyVal :=
  match get_player reg player_id with
  | Option.none =>
      { res := Except.ok (PyVal.bool false), invoked := [],
        logs := [LogMsg.nonExistingPlayer player_id] }
  | some player =>
      match getattr player cmd with
      | Option.none =>
          { res := Except.ok (PyVal.bool false), invoked := [],
            logs := [LogMsg.nonExistingCommand cmd player.name] }
      | some player_cmd =>
          match cmd_args with
          | some a =>
              { res := player_cmd.run [PyVal.str a],
                invoked := [⟨player_id, cmd, [PyVal.str a]⟩], logs := [] }
          | Option.none =>
              { res := player_cmd.run [],
                invoked := [⟨player_id, cmd, []⟩], logs := [] }

/- ---------------------------------------------------------------------
   Websocket handler: per-frame processing (web.py 237-257) and the
   session try/finally lifecycle (web.py 224-261).
--------------------------------------------------------------------- -/

/-- Messages the websocket handler can write back to its own socket while
processing a frame (web.py line 245: the sorted players listing). -/
inductive WsReply where
  | playersList (names : List String)
deriving DecidableEq, Repr

/-- Result of processing one inbound text frame: whether the loop body
returned or raised, the replies written to the socket, the capability
invocations performed and the diagnostics logged. -/
structure FrameOutcome where
  res : Except PyErr Unit
  replies : List WsReply
  invoked : List Invocation
  logs : List LogMsg
deriving Repr

/-- Helper for `ws_command`: `await player_cmd(args...)` — the invocation is
recorded, its result discarded (the websocket loop never sends it back). -/
def mkCall (pid cmd : String) (c : Capability) (args : List PyVal) : FrameOutcome :=
  { res := (c.run args).map (fun _ => ()),
    replies := [], invoked := [⟨pid, cmd, args⟩], logs := [] }

/-- Embedding of the command branch of the websocket loop (web.py lines
247-257), applied to `msg.data.split('/')`.  An out-of-range index access
raises `IndexError` exactly as `msg_data_parts[1]` / `msg_data_parts[3]`
would; `cmd_args` is the fifth token only when there are exactly five
tokens; the invocation uses the argument only when `cmd_args` is truthy
(present and non-empty). -/
def ws_command (reg : Registry) (parts : List String) : FrameOutcome :=
  match parts[1]?, parts[3]? with
  | some player_id, some cmd =>
      let cmd_args : Option String :=
        if parts.length == 5 then some (parts.getD 4 "") else Option.none
      let player := get_player reg player_id
      match getattrOpt player cmd with
      | some player_cmd =>
          match cmd_args with
          | some a =>
              if a == "" then mkCall player_id cmd player_cmd []
              else mkCall player_id cmd player_cmd [PyVal.str a]
          | Option.none => mkCall player_id cmd player_cmd []
      | Option.none =>
          { res := Except.ok (), replies := [], invoked := [], logs := [] }
  | _, _ =>
      { res := Except.error PyErr.indexError, replies := [], invoked := [], logs := [] }

/-- Ascending insertion into a name-sorted list. -/
def insertName (x : String) : List String → List String
  | [] => [x]
  | y :: ys => if x ≤ y then x :: y :: ys else y :: insertName x ys

/-- Stable ascending sort by name, modelling `players.sort(key=lambda x: x.name)`. -/
def sortNames : List String → List String
  | [] => []
  | x :: xs => insertName x (sortNames xs)

/-- The players listing the handler replies with: all registered player
names, sorted ascending (web.py lines 242-244). -/
def players_sorted (reg : Registry) : List String :=
  sortNames (reg.map (fun pr => pr.2.name))

/-- Guard of the command branch (web.py line 246):
`msg.data.startswith('players') and '/cmd/' in msg.data`. -/
def ws_guard (data : String) : Bool :=
  ("players".toList.isPrefixOf data.toList) && containsSub ("/cmd/".toList) data.toList

/-- Embedding of one iteration of the websocket receive loop on a text
frame (web.py lines 241-257): the literal frame `players` is answered with
the sorted listing; frames matching the command guard are dispatched via
`ws_command`; any other frame is silently ignored. -/
def handle_frame (reg : Registry) (data : String) : FrameOutcome :=
  if data == "players" then
    { res := Except.ok (),
      replies := [WsReply.playersList (players_sorted reg)],
      invoked := [], logs := [] }
  else if ws_guard data then
    ws_command reg (pySplit '/' data)
  else
    { res := Except.ok (), replies := [], invoked := [], logs := [] }

/-- How the body of the `try` block in `websocket_handler` ended. -/
inductive BodyEnd where
  | clean
  | cancelled
  | raised (e : PyErr)
deriving DecidableEq, Repr

/-- Runs the receive loop over a list of inbound text frames, stopping at
the first frame whose processing raises (the exception escapes the
`async for` loop). -/
def runFrames (reg : Registry) : List String → Option PyErr
  | [] => Option.none
  | f :: rest =>
      match (handle_frame reg f).res with
      | Except.error e => some e
      | Except.ok _ => runFrames reg rest

/-- Modelled from the spec: `ListenerRegistry.unregister`
(`self.mass.remove_event_listener`, outside src/): removes the entry if
present; removing an absent — or never-assigned, i.e. `None` — id is a
no-op, not an error (spec §4.3, §8). -/
def remove_event_listener (listeners : List Nat) (cb_id : Option Nat) : List Nat :=
  match cb_id with
  | Option.none => listeners
  | some i => listeners.filter (fun j => j != i)

/-- Modelled from the spec: `ListenerRegistry.register`
(`self.mass.add_event_listener`, outside src/): stores the new subscriber
under a fresh id. -/
def add_event_listener (listeners : List Nat) (newId : Nat) : List Nat :=
  newId :: listeners

/-- Observable effects of one complete websocket session. -/
structure SessionResult where
  ending : BodyEnd
  cbIdAtExit : Option Nat
  unregisterCalls : List (Option Nat)
  listeners : List Nat
deriving Repr

/-- Embedding of the try/finally lifecycle of `Web.websocket_handler`
(web.py lines 224-261).  `cb_id` starts as `None`; if the handshake fails
(`prepareOk = false`, covering `ws.prepare` or the registration raising)
the body exits before registration; otherwise the session registers,
processes frames until one raises, the peer closes cleanly, or the task is
severed/cancelled (`severed`).  The `finally` block then calls
`remove_event_listener` with whatever `cb_id` holds — on every exit path,
exactly once. -/
def websocket_session (reg : Registry) (listeners0 : List Nat) (prepareOk : Bool)
    (newId : Nat) (frames : List String) (severed : Bool) : SessionResult :=
  if prepareOk then
    let listeners1 := add_event_listener listeners0 newId
    let cb_id : Option Nat := some newId
    let ending :=
      match runFrames reg frames with
      | some e => BodyEnd.raised e
      | Option.none => if severed then BodyEnd.cancelled else BodyEnd.clean
    { ending := ending, cbIdAtExit := cb_id,
      unregisterCalls := [cb_id],
      listeners := remove_event_listener listeners1 cb_id }
  else
    { ending := BodyEnd.raised PyErr.transportError, cbIdAtExit := Option.none,
      unregisterCalls := [Option.none],
      listeners := remove_event_listener listeners0 Option.none }

/- ---------------------------------------------------------------------
   Legacy LMS json-rpc phrase endpoint: Web.json_rpc (web.py 284-328).
--------------------------------------------------------------------- -/

/-- Python `await player.name(args...)` as used by `json_rpc`: `player` may
be `None` (its resolution result is never checked), in which case the
attribute access raises `AttributeError`; likewise when a live player lacks
the method.  A successful lookup records the invocation and runs it. -/
def invokePlayer (player_id : String) (p : Option Player) (name : String)
    (args : List PyVal) : Outcome PyVal :=
  match p with
  | Option.none =>
      { res := Except.error (PyErr.attributeError name), invoked := [], logs := [] }
  | some player =>
      match getattr player name with
      | Option.none =>
          { res := Except.error (PyErr.attributeError name), invoked := [], logs := [] }
      | some c =>
          { res := c.run args, invoked := [⟨player_id, name, args⟩], logs := [] }

/-- Wraps a recognized-phrase branch: if the invocation returned, the
endpoint answers the literal text `success`; a raised exception propagates
(web.py line 328). -/
def respond (o : Outcome PyVal) : Outcome String :=
  { res := o.res.map (fun _ => "success"), invoked := o.invoked, logs := o.logs }

/-- Embedding of `Web.json_rpc` (web.py lines 284-328), applied to the
already-decoded request fields `params[0]` (player id) and `params[1]`
(the word list).  The phrase is the words joined with single spaces and
matched against the if/elif chain in source order; the final `else`
answers the literal text `command not supported` without invoking
anything. -/
def json_rpc (reg : Registry) (player_id : String) (cmds : List String) : Outcome String :=
  let cmd_str := joinSpace cmds
  let player := get_player reg player_id
  if cmd_str == "play" then respond (invokePlayer player_id player "play" [])
  else if cmd_str == "pause" then respond (invokePlayer player_id player "pause" [])
  else if cmd_str == "stop" then respond (invokePlayer player_id player "stop" [])
  else if cmd_str == "next" then respond (invokePlayer player_id player "next" [])
  else if cmd_str == "previous" then respond (invokePlayer player_id player "previous" [])
  else if containsSub "power".toList cmd_str.toList then
    let a : PyVal :=
      if 1 < cmds.length then PyVal.str (cmds.getD 1 "") else PyVal.none
    respond (invokePlayer player_id player "power" [a])
  else if cmd_str == "playlist index +1" then respond (invokePlayer player_id player "next" [])
  else if cmd_str == "playlist index -1" then respond (invokePlayer player_id player "previous" [])
  else if containsSub "mixer volume".toList cmd_str.toList then
    match cmds[2]? with
    | some v => respond (invokePlayer player_id player "volume_set" [PyVal.str v])
    | Option.none =>
        { res := Except.error PyErr.indexError, invoked := [], logs := [] }
  else if cmd_str == "mixer muting 1" then
    respond (invokePlayer player_id player "volume_mute" [PyVal.bool true])
  else if cmd_str == "mixer muting 0" then
    respond (invokePlayer player_id player "volume_mute" [PyVal.bool false])
  else if cmd_str == "button volup" then respond (invokePlayer player_id player "volume_up" [])
  else if cmd_str == "button voldown" then respond (invokePlayer player_id player "volume_down" [])
  else if cmd_str == "button power" then respond (invokePlayer player_id player "power_toggle" [])
  else { res := Except.ok "command not supported", invoked := [], logs := [] }

/- ---------------------------------------------------------------------
   Concrete fixtures used by counterexamples and witnesses.
--------------------------------------------------------------------- -/

/-- A capability that always succeeds, returning `None`. -/
def okCap : Capability := ⟨fun _ => Except.ok PyVal.none⟩

/-- A capability requiring one argument: called with none it raises
`TypeError`, like a Python method with a mandatory positional parameter. -/
def volumeSetCap : Capability :=
  ⟨fun args =>
    match args with
    | [] => Except.error (PyErr.typeError "volume_set() missing required argument")
    | _ => Except.ok PyVal.none⟩

/-- A player exposing every capability the legacy json-rpc endpoint can
invoke, all succeeding. -/
def fullPlayer : Player :=
  { name := "P one",
    caps := [("play", okCap), ("pause", okCap), ("stop", okCap), ("next", okCap),
             ("previous", okCap), ("power", okCap), ("volume_set", okCap),
             ("volume_mute", okCap), ("volume_up", okCap), ("volume_down", okCap),
             ("power_toggle", okCap)] }

/-- Registry with the single player `p1` = `fullPlayer`. -/
def fullReg : Registry := [("p1", fullPlayer)]

/-- A player exposing the capabilities addressed by websocket test frames. -/
def pausePlayer : Player :=
  { name := "P one", caps := [("pause", okCap), ("volumeSet", okCap)] }

/-- Registry with the single player `p1` = `pausePlayer`. -/
def wsReg : Registry := [("p1", pausePlayer)]

/-- Registry whose player `p1` has only the argument-requiring
`volume_set` capability. -/
def argReg : Registry :=
  [("p1", { name := "P one", caps := [("volume_set", volumeSetCap)] })]

/- ---------------------------------------------------------------------
   Helper lemmas.
--------------------------------------------------------------------- -/

/-- No branch of the websocket command dispatch ever writes a reply. -/
theorem ws_command_replies_nil (reg : Registry) (parts : List String) :
    (ws_command reg parts).replies = [] := by
  unfold ws_command mkCall
  repeat' split
  all_goals dsimp only
  all_goals repeat' split
  all_goals rfl

/-- A recognized-phrase branch of `json_rpc` that returns (does not raise)
answers the literal text `success`. -/
theorem respond_res_ok (o : Outcome PyVal) (r : String)
    (h : (respond o).res = Except.ok r) : r = "success" := by
  unfold respond at h
  cases ho : o.res with
  | error e => rw [ho] at h; simp [Except.map] at h
  | ok v => rw [ho] at h; simp [Except.map] at h; exact h.symm

/- ---------------------------------------------------------------------
   Claim theorems.
--------------------------------------------------------------------- -/

/-- C8: the token-stream parser maps `players/p1/cmd/pause` to target `p1`,
command `pause`, no argument; maps `players/p1/cmd/volumeSet/42` to target
`p1`, command `volumeSet`, argument `42`; and the bare literal frame
`players` is answered with the target listing, routed separately from
command dispatch. -/
theorem ws_token_stream_mapping :
    handle_frame wsReg "players/p1/cmd/pause"
      = ⟨Except.ok (), [], [⟨"p1", "pause", []⟩], []⟩
    ∧ handle_frame wsReg "players/p1/cmd/volumeSet/42"
      = ⟨Except.ok (), [], [⟨"p1", "volumeSet", [PyVal.str "42"]⟩], []⟩
    ∧ handle_frame wsReg "players"
      = ⟨Except.ok (), [WsReply.playersList ["P one"]], [], []⟩ :=
  ⟨rfl, rfl, rfl⟩

/-- C3: on every exit path of the websocket session (handshake failure,
frame-processing error, cancellation/severed transport, clean peer close)
the `finally` block calls `remove_event_listener` with the stored
subscription id exactly once, so a subscriber never outlives its
connection: a fresh id is absent from the registry again after the
session. -/
theorem ws_session_unregisters_exactly_once (reg : Registry) (listeners0 : List Nat)
    (prepareOk : Bool) (newId : Nat) (frames : List String) (severed : Bool) :
    (websocket_session reg listeners0 prepareOk newId frames severed).unregisterCalls
      = [(websocket_session reg listeners0 prepareOk newId frames severed).cbIdAtExit]
    ∧ (newId ∉ listeners0 →
        (websocket_session reg listeners0 prepareOk newId frames severed).listeners
          = listeners0) := by
  unfold websocket_session
  cases prepareOk with
  | false =>
      exact ⟨rfl, fun _ => rfl⟩
  | true =>
      refine ⟨rfl, fun hmem => ?_⟩
      simp only [if_true, add_event_listener, remove_event_listener]
      rw [List.filter_cons]
      simp only [bne_self_eq_false, Bool.false_eq_true, if_false]
      exact List.filter_eq_self.mpr fun a ha => by
        simp only [bne_iff_ne, ne_eq]
        exact fun hEq => hmem (hEq ▸ ha)

/-- C3 witness: a concrete session over an empty registry with fresh id 7
unregisters exactly once and leaves the listener registry as it was. -/
theorem ws_session_unregisters_exactly_once_witness :
    (websocket_session [] [] true 7 [] false).unregisterCalls = [some 7]
    ∧ (websocket_session [] [] true 7 [] false).listeners = [] := by
  have h := ws_session_unregisters_exactly_once [] [] true 7 [] false
  exact ⟨h.1, h.2 (by simp)⟩

/-- C10: a websocket session that fails before listener registration
completes still runs its cleanup path, calling `remove_event_listener`
with the id `None`; the (spec-modelled) registry treats unregistering
`None` as a no-op, leaving the listener set unchanged. -/
theorem ws_session_prefail_cleanup (reg : Registry) (listeners0 : List Nat)
    (newId : Nat) (frames : List String) (severed : Bool) :
    (websocket_session reg listeners0 false newId frames severed).unregisterCalls
      = [Option.none]
    ∧ (websocket_session reg listeners0 false newId frames severed).listeners
      = listeners0 :=
  ⟨rfl, rfl⟩

/-- C4 counterexample: a well-formed command frame dispatched on a live
player invokes the capability but writes nothing back on the websocket
(`replies = []`) — the computed result is discarded, contradicting the
claim that the `DispatchResult` is written back to the session's sink. -/
theorem ws_no_result_written_cex :
    handle_frame wsReg "players/p1/cmd/pause"
      = ⟨Except.ok (), [], [⟨"p1", "pause", []⟩], []⟩ := rfl

/-- C4 amended: on a text frame other than the literal `players` the
websocket loop never writes anything back to its sink (command results are
computed and discarded); only the out-of-band literal frame `players` is
answered, with the list-of-targets reply. -/
theorem ws_no_result_written (reg : Registry) (data : String)
    (h : data ≠ "players") :
    (handle_frame reg data).replies = []
    ∧ handle_frame reg "players"
      = ⟨Except.ok (), [WsReply.playersList (players_sorted reg)], [], []⟩ := by
  constructor
  · have hb : (data == "players") = false := by
      simpa using h
    unfold handle_frame
    rw [hb]
    simp only [Bool.false_eq_true, if_false]
    cases hg : ws_guard data with
    | true => simp only [if_true, ws_command_replies_nil]
    | false => simp only [Bool.false_eq_true, if_false]
  · rfl

/-- C4 witness: concrete instance — a pause command frame produces no
reply, while the literal `players` frame is answered with the listing. -/
theorem ws_no_result_written_witness :
    (handle_frame wsReg "players/p1/cmd/pause").replies = []
    ∧ handle_frame wsReg "players"
      = ⟨Except.ok (), [WsReply.playersList (players_sorted wsReg)], [], []⟩ :=
  ws_no_result_written wsReg "players/p1/cmd/pause" (by decide)

/-- C5 counterexample: the frame `players/cmd/x` passes the command-branch
guard but splits into only 3 tokens, so token extraction raises
`IndexError` — the session crashes instead of replying with a
`MalformedFrame`-style protocol error. -/
theorem ws_malformed_frames_cex :
    handle_frame ([] : Registry) "players/cmd/x"
      = ⟨Except.error PyErr.indexError, [], [], []⟩ := rfl

/-- C5 amended: a malformed frame is never answered with an error reply.
A text frame that misses the `players`/`/cmd/` markers (and is not the
literal `players`) is silently ignored — no reply, no crash; a frame that
matches the guard but has fewer than 4 slash-separated tokens raises
`IndexError`, which escapes the receive loop and terminates the session. -/
theorem ws_malformed_frames (reg : Registry) (data : String)
    (hne : data ≠ "players") :
    (ws_guard data = false → handle_frame reg data = ⟨Except.ok (), [], [], []⟩)
    ∧ (ws_guard data = true → (pySplit '/' data).length < 4 →
        handle_frame reg data = ⟨Except.error PyErr.indexError, [], [], []⟩) := by
  have hb : (data == "players") = false := by simpa using hne
  constructor
  · intro hg
    unfold handle_frame
    rw [hb, hg]
    simp
  · intro hg hlen
    have h3 : (pySplit '/' data)[3]? = Option.none :=
      List.getElem?_eq_none (by omega)
    unfold handle_frame
    rw [hb, hg]
    simp only [Bool.false_eq_true, if_false, if_true]
    unfold ws_command
    cases h1 : (pySplit '/' data)[1]? with
    | none => rw [h3]
    | some pid => rw [h3]

/-- C5 witness: a frame without the markers is silently ignored, and a
short guard-matching frame crashes with `IndexError`. -/
theorem ws_malformed_frames_witness :
    handle_frame wsReg "foobar" = ⟨Except.ok (), [], [], []⟩
    ∧ handle_frame wsReg "players/cmd/y"
      = ⟨Except.error PyErr.indexError, [], [], []⟩ :=
  ⟨(ws_malformed_frames wsReg "foobar" (by decide)).1 (by rfl),
   (ws_malformed_frames wsReg "players/cmd/y" (by decide)).2 (by rfl) (by decide)⟩

/-- C1 counterexample: on the legacy JSON-RPC surface, dispatching the
recognized phrase `play` to an unresolved target raises `AttributeError`
(`None.play`) and records no diagnostic at all — it does not yield an
`UnknownTarget` outcome with a diagnostic of the requested id. -/
theorem dispatch_unresolved_target_cex :
    (json_rpc [] "p1" ["play"]).res = Except.error (PyErr.attributeError "play")
    ∧ (json_rpc [] "p1" ["play"]).logs = [] :=
  ⟨rfl, rfl⟩

/-- C1 amended: when the target id does not resolve, no capability is ever
invoked on any of the three surfaces, but the outcomes differ: the REST
endpoint returns the default `False` and logs a diagnostic naming the
requested id; the websocket command path silently does nothing (no reply,
no diagnostic); the legacy JSON-RPC path raises `AttributeError` for a
recognized phrase. -/
theorem dispatch_unresolved_target (reg : Registry) (pid cmd : String)
    (args : Option String) (h : get_player reg pid = Option.none) :
    player_command reg pid cmd args
      = ⟨Except.ok (PyVal.bool false), [], [LogMsg.nonExistingPlayer pid]⟩
    ∧ (∀ (parts : List String) (c : String),
        parts[1]? = some pid → parts[3]? = some c →
        ws_command reg parts = ⟨Except.ok (), [], [], []⟩)
    ∧ json_rpc reg pid ["play"]
      = ⟨Except.error (PyErr.attributeError "play"), [], []⟩ := by
  refine ⟨?_, ?_, ?_⟩
  · unfold player_command
    rw [h]
  · intro parts c h1 h3
    unfold ws_command
    rw [h1, h3]
    dsimp only
    rw [h]
    rfl
  · unfold json_rpc
    dsimp only [joinSpace]
    rw [h]
    rfl

/-- C1 witness: concrete unresolved target `nope` over the empty registry. -/
theorem dispatch_unresolved_target_witness :
    player_command [] "nope" "play" Option.none
      = ⟨Except.ok (PyVal.bool false), [], [LogMsg.nonExistingPlayer "nope"]⟩
    ∧ ws_command [] ["players", "nope", "cmd", "play"] = ⟨Except.ok (), [], [], []⟩
    ∧ json_rpc [] "nope" ["play"]
      = ⟨Except.error (PyErr.attributeError "play"), [], []⟩ := by
  have h := dispatch_unresolved_target [] "nope" "play" Option.none rfl
  exact ⟨h.1, h.2.1 ["players", "nope", "cmd", "play"] "play" rfl rfl, h.2.2⟩

/-- C7 counterexample: a websocket command frame naming a capability the
resolved player does not have is silently dropped — no `UnknownCommand`
reply and no log of the attempted command and target name (`logs = []`),
contradicting the claim for the websocket dispatch surface. -/
theorem unknown_command_paths_cex :
    handle_frame wsReg "players/p1/cmd/bogus" = ⟨Except.ok (), [], [], []⟩ := rfl

/-- C7 amended: an unknown command name is never invoked on either path;
the REST endpoint returns the default `False` and logs the attempted
command and the player's name, while the websocket path silently does
nothing — no reply and no diagnostic. -/
theorem unknown_command_paths (reg : Registry) (pid cmd : String) (p : Player)
    (h1 : get_player reg pid = some p) (h2 : getattr p cmd = Option.none) :
    (∀ args : Option String,
        player_command reg pid cmd args
          = ⟨Except.ok (PyVal.bool false), [], [LogMsg.nonExistingCommand cmd p.name]⟩)
    ∧ (∀ parts : List String, parts[1]? = some pid → parts[3]? = some cmd →
        ws_command reg parts = ⟨Except.ok (), [], [], []⟩) := by
  constructor
  · intro args
    cases args <;> simp [player_command, h1, h2]
  · intro parts hp1 hp3
    simp [ws_command, hp1, hp3, h1, getattrOpt, h2]

/-- C7 witness: concrete unknown command `bogus` against player `p1`. -/
theorem unknown_command_paths_witness :
    player_command wsReg "p1" "bogus" Option.none
      = ⟨Except.ok (PyVal.bool false), [], [LogMsg.nonExistingCommand "bogus" "P one"]⟩
    ∧ ws_command wsReg ["players", "p1", "cmd", "bogus"]
      = ⟨Except.ok (), [], [], []⟩ := by
  have h := unknown_command_paths wsReg "p1" "bogus" pausePlayer rfl rfl
  exact ⟨h.1 Option.none, h.2 ["players", "p1", "cmd", "bogus"] rfl rfl⟩

/-- C2 counterexample: a recognized command whose capability requires an
argument, dispatched without one, makes the REST handler end in a raised
`TypeError` (an HTTP 500), not an `InvocationFailed` result value. -/
theorem invocation_failure_propagates_cex :
    (player_command argReg "p1" "volume_set" Option.none).res
      = Except.error (PyErr.typeError "volume_set() missing required argument") := rfl

/-- C2 amended: a failing capability invocation is not caught anywhere:
the REST handler re-raises the underlying exception, and in the websocket
loop the exception escapes the receive loop and terminates the session
(whose `finally` still unregisters the listener exactly once). -/
theorem invocation_failure_propagates (reg : Registry) (pid cmd : String)
    (p : Player) (c : Capability) (e : PyErr)
    (h1 : get_player reg pid = some p) (h2 : getattr p cmd = some c)
    (h3 : c.run [] = Except.error e) :
    (player_command reg pid cmd Option.none).res = Except.error e
    ∧ (∀ (L : List Nat) (newId : Nat) (data : String)
          (frames : List String) (severed : Bool),
        (handle_frame reg data).res = Except.error e →
        (websocket_session reg L true newId (data :: frames) severed).ending
            = BodyEnd.raised e
        ∧ (websocket_session reg L true newId (data :: frames) severed).unregisterCalls
            = [some newId]) := by
  constructor
  · simp [player_command, h1, h2, h3]
  · intro L newId data frames severed hf
    simp [websocket_session, runFrames, hf]

/-- C2 witness: the argument-requiring `volume_set` capability, invoked
with no argument, raises; the REST result is the raised `TypeError`, and a
session receiving that frame ends raised yet still unregisters once. -/
theorem invocation_failure_propagates_witness :
    (player_command argReg "p1" "volume_set" Option.none).res
      = Except.error (PyErr.typeError "volume_set() missing required argument")
    ∧ (websocket_session argReg [] true 3 ["players/p1/cmd/volume_set"] false).ending
      = BodyEnd.raised (PyErr.typeError "volume_set() missing required argument")
    ∧ (websocket_session argReg [] true 3 ["players/p1/cmd/volume_set"] false).unregisterCalls
      = [some 3] := by
  have h := invocation_failure_propagates argReg "p1" "volume_set"
      { name := "P one", caps := [("volume_set", volumeSetCap)] } volumeSetCap
      (PyErr.typeError "volume_set() missing required argument") rfl rfl rfl
  have h2 := h.2 [] 3 "players/p1/cmd/volume_set" [] false rfl
  exact ⟨h.1, h2.1, h2.2⟩

/-- C9: on the websocket path a capability is invoked with an argument
exactly when the frame has 5 slash-separated tokens and the 5th is
non-empty; with 6 or more tokens, or a trailing empty token, the
invocation is argumentless — whereas the REST path passes any non-`None`
`cmd_args` through, including the empty string. -/
theorem ws_argument_passing (reg : Registry) (parts : List String)
    (pid cmd : String) (p : Player) (c : Capability)
    (h1 : parts[1]? = some pid) (h3 : parts[3]? = some cmd)
    (hp : get_player reg pid = some p) (hc : getattr p cmd = some c) :
    (ws_command reg parts).invoked
      = [⟨pid, cmd,
          if parts.length = 5 ∧ parts.getD 4 "" ≠ ""
          then [PyVal.str (parts.getD 4 "")] else []⟩]
    ∧ (∀ a : String,
        (player_command reg pid cmd (some a)).invoked
          = [⟨pid, cmd, [PyVal.str a]⟩]) := by
  constructor
  · by_cases h5 : parts.length = 5
    · simp [ws_command, h1, h3, hp, getattrOpt, hc, h5, mkCall]
      split <;> rfl
    · simp [ws_command, h1, h3, hp, getattrOpt, hc, h5, mkCall]
  · intro a
    simp [player_command, hp, hc]

/-- C9 witness: a trailing-empty 5th token and a 6-token frame both invoke
without argument; the REST path passes the empty string through. -/
theorem ws_argument_passing_witness :
    (ws_command wsReg ["players", "p1", "cmd", "volumeSet", ""]).invoked
      = [⟨"p1", "volumeSet", []⟩]
    ∧ (ws_command wsReg ["players", "p1", "cmd", "volumeSet", "42", "x"]).invoked
      = [⟨"p1", "volumeSet", []⟩]
    ∧ (player_command wsReg "p1" "volumeSet" (some "")).invoked
      = [⟨"p1", "volumeSet", [PyVal.str ""]⟩] := by
  have ha := ws_argument_passing wsReg ["players", "p1", "cmd", "volumeSet", ""]
      "p1" "volumeSet" pausePlayer okCap rfl rfl rfl rfl
  have hb := ws_argument_passing wsReg ["players", "p1", "cmd", "volumeSet", "42", "x"]
      "p1" "volumeSet" pausePlayer okCap rfl rfl rfl rfl
  refine ⟨?_, ?_, ha.2 ""⟩
  · rw [ha.1]; decide
  · rw [hb.1]; decide

/-- Every branch of `json_rpc` produces either a wrapped recognized-phrase
invocation, the raised `IndexError` of `cmds[2]`, or the literal
`command not supported` reply with nothing invoked. -/
theorem json_rpc_eq_cases (reg : Registry) (pid : String) (cmds : List String)
    (o : Outcome String) (h : json_rpc reg pid cmds = o) :
    (∃ u, o = respond u)
    ∨ o = ⟨Except.error PyErr.indexError, [], []⟩
    ∨ o = ⟨Except.ok "command not supported", [], []⟩ := by
  unfold json_rpc at h
  dsimp only at h
  generalize joinSpace cmds = s at h
  by_cases c1 : (s == "play") = true
  · rw [if_pos c1] at h; exact Or.inl ⟨_, h.symm⟩
  rw [if_neg c1] at h
  by_cases c2 : (s == "pause") = true
  · rw [if_pos c2] at h; exact Or.inl ⟨_, h.symm⟩
  rw [if_neg c2] at h
  by_cases c3 : (s == "stop") = true
  · rw [if_pos c3] at h; exact Or.inl ⟨_, h.symm⟩
  rw [if_neg c3] at h
  by_cases c4 : (s == "next") = true
  · rw [if_pos c4] at h; exact Or.inl ⟨_, h.symm⟩
  rw [if_neg c4] at h
  by_cases c5 : (s == "previous") = true
  · rw [if_pos c5] at h; exact Or.inl ⟨_, h.symm⟩
  rw [if_neg c5] at h
  by_cases c6 : containsSub "power".toList s.toList = true
  · rw [if_pos c6] at h; exact Or.inl ⟨_, h.symm⟩
  rw [if_neg c6] at h
  by_cases c7 : (s == "playlist index +1") = true
  · rw [if_pos c7] at h; exact Or.inl ⟨_, h.symm⟩
  rw [if_neg c7] at h
  by_cases c8 : (s == "playlist index -1") = true
  · rw [if_pos c8] at h; exact Or.inl ⟨_, h.symm⟩
  rw [if_neg c8] at h
  by_cases c9 : containsSub "mixer volume".toList s.toList = true
  · rw [if_pos c9] at h
    cases h2 : cmds[2]? with
    | some v => rw [h2] at h; exact Or.inl ⟨_, h.symm⟩
    | none => rw [h2] at h; exact Or.inr (Or.inl h.symm)
  rw [if_neg c9] at h
  by_cases c10 : (s == "mixer muting 1") = true
  · rw [if_pos c10] at h; exact Or.inl ⟨_, h.symm⟩
  rw [if_neg c10] at h
  by_cases c11 : (s == "mixer muting 0") = true
  · rw [if_pos c11] at h; exact Or.inl ⟨_, h.symm⟩
  rw [if_neg c11] at h
  by_cases c12 : (s == "button volup") = true
  · rw [if_pos c12] at h; exact Or.inl ⟨_, h.symm⟩
  rw [if_neg c12] at h
  by_cases c13 : (s == "button voldown") = true
  · rw [if_pos c13] at h; exact Or.inl ⟨_, h.symm⟩
  rw [if_neg c13] at h
  by_cases c14 : (s == "button power") = true
  · rw [if_pos c14] at h; exact Or.inl ⟨_, h.symm⟩
  rw [if_neg c14] at h
  exact Or.inr (Or.inr h.symm)

/-- Case split on the result of a `json_rpc` call. -/
theorem json_rpc_cases (reg : Registry) (pid : String) (cmds : List String) :
    (∃ o, json_rpc reg pid cmds = respond o)
    ∨ json_rpc reg pid cmds = ⟨Except.error PyErr.indexError, [], []⟩
    ∨ json_rpc reg pid cmds = ⟨Except.ok "command not supported", [], []⟩ := by
  rcases json_rpc_eq_cases reg pid cmds (json_rpc reg pid cmds) rfl with ⟨u, hu⟩ | hu | hu
  · exact Or.inl ⟨u, hu⟩
  · exact Or.inr (Or.inl hu)
  · exact Or.inr (Or.inr hu)

/-- A `json_rpc` call that returns (does not raise) answers either the
literal `success`, or the literal `command not supported` having invoked
no capability. -/
theorem json_rpc_res_shape (reg : Registry) (pid : String) (cmds : List String)
    (r : String) (h : (json_rpc reg pid cmds).res = Except.ok r) :
    r = "success"
    ∨ (r = "command not supported" ∧ (json_rpc reg pid cmds).invoked = []) := by
  rcases json_rpc_cases reg pid cmds with ⟨o, ho⟩ | ho | ho
  · rw [ho] at h
    exact Or.inl (respond_res_ok o r h)
  · rw [ho] at h
    simp at h
  · rw [ho] at h
    simp at h
    exact Or.inr ⟨h.symm, by rw [ho]⟩

/-- C6: legacy-phrase mapping — `mixer volume 37` invokes the volume-set
capability with argument `37`; `mixer muting 1` invokes mute-on
(`volume_mute(True)`); `playlist index +1` invokes `next`; the
unrecognized phrase `foobar` is answered with the literal text
`command not supported` with no capability invoked; and in general every
request that returns is answered either `success` (recognized) or
`command not supported` with nothing invoked (unrecognized). -/
theorem json_rpc_legacy_phrases :
    json_rpc fullReg "p1" ["mixer", "volume", "37"]
      = ⟨Except.ok "success", [⟨"p1", "volume_set", [PyVal.str "37"]⟩], []⟩
    ∧ json_rpc fullReg "p1" ["mixer", "muting", "1"]
      = ⟨Except.ok "success", [⟨"p1", "volume_mute", [PyVal.bool true]⟩], []⟩
    ∧ json_rpc fullReg "p1" ["playlist", "index", "+1"]
      = ⟨Except.ok "success", [⟨"p1", "next", []⟩], []⟩
    ∧ json_rpc fullReg "p1" ["foobar"]
      = ⟨Except.ok "command not supported", [], []⟩
    ∧ (∀ (reg : Registry) (pid : String) (cmds : List String) (r : String),
        (json_rpc reg pid cmds).res = Except.ok r →
        r = "success"
        ∨ (r = "command not supported" ∧ (json_rpc reg pid cmds).invoked = [])) :=
  ⟨rfl, rfl, rfl, rfl, fun reg pid cmds r h => json_rpc_res_shape reg pid cmds r h⟩

/-- C6 witness: the general dichotomy applied at the concrete unrecognized
phrase `foobar`. -/
theorem json_rpc_legacy_phrases_witness :
    "command not supported" = "success"
    ∨ ("command not supported" = "command not supported"
        ∧ (json_rpc fullReg "p1" ["foobar"]).invoked = []) :=
  json_rpc_legacy_phrases.2.2.2.2 fullReg "p1" ["foobar"] "command not supported" rfl

end MassWeb
